import Mathlib

/-!
Verification development for the Montana Feed Company call-agent backend.

The Python sources are shallowly embedded: pure helpers become Lean
functions on `String`/`List`; the external Zep memory service and the
Supabase datastore are modelled by explicit state / `Except`-valued query
results, and every `try/except` in the source becomes explicit handling of
the `.error` case.
-/

namespace MFC

/-- Python string truthiness for `Option String` values coming from
dict `.get` calls: `None` and `""` are falsy. -/
def optTruthy : Option String → Bool
  | none => false
  | some s => s ≠ ""

/-- Python `a or b` on optional strings (first truthy value, else `b`). -/
def pyOr (a b : Option String) : Option String :=
  if optTruthy a then a else b

/-- Python `s.lower()` (ASCII). -/
def strLower (s : String) : String :=
  String.mk (s.data.map Char.toLower)

/-- Python `s.upper()` (ASCII). -/
def strUpper (s : String) : String :=
  String.mk (s.data.map Char.toUpper)

/-- Python `s.strip()`: drop leading and trailing whitespace. -/
def strStrip (s : String) : String :=
  String.mk (((s.data.dropWhile Char.isWhitespace).reverse.dropWhile
      Char.isWhitespace).reverse)

/-- Python `needle in hay` substring test, on char lists. -/
def containsSubChars (needle hay : List Char) : Bool :=
  hay.tails.any (fun t => needle.isPrefixOf t)

/-- Python `needle in hay` substring test on strings. -/
def containsSub (needle hay : String) : Bool :=
  containsSubChars needle.data hay.data

/-- ASCII apostrophe. -/
def apos : Char := Char.ofNat 39

/-- ASCII apostrophe as a one-character string. -/
def aposS : String := String.mk [apos]

end MFC

namespace MFC.Specialists

/-- The static town→county table from `skills/specialists.py`
(`MONTANA_TOWN_TO_COUNTY`).  The Python dict literal has no duplicate
keys, so an association list with first-key lookup is an exact model. -/
def MONTANA_TOWN_TO_COUNTY : List (String × String) := [
  ("dillon", "Beaverhead County"),
  ("lima", "Beaverhead County"),
  ("dell", "Beaverhead County"),
  ("wisdom", "Beaverhead County"),
  ("jackson", "Beaverhead County"),
  ("ennis", "Madison County"),
  ("virginia city", "Madison County"),
  ("sheridan", "Madison County"),
  ("twin bridges", "Madison County"),
  ("alder", "Madison County"),
  ("boulder", "Jefferson County"),
  ("whitehall", "Jefferson County"),
  ("butte", "Silver Bow County"),
  ("anaconda", "Deer Lodge County"),
  ("deer lodge", "Deer Lodge County"),
  ("philipsburg", "Granite County"),
  ("hamilton", "Ravalli County"),
  ("stevensville", "Ravalli County"),
  ("darby", "Ravalli County"),
  ("victor", "Ravalli County"),
  ("corvallis", "Ravalli County"),
  ("superior", "Mineral County"),
  ("alberton", "Mineral County"),
  ("missoula", "Missoula County"),
  ("lolo", "Missoula County"),
  ("frenchtown", "Missoula County"),
  ("bonner", "Missoula County"),
  ("clinton", "Missoula County"),
  ("seeley lake", "Missoula County"),
  ("thompson falls", "Sanders County"),
  ("plains", "Sanders County"),
  ("hot springs", "Sanders County"),
  ("trout creek", "Sanders County"),
  ("noxon", "Sanders County"),
  ("polson", "Lake County"),
  ("ronan", "Lake County"),
  ("st ignatius", "Lake County"),
  ("saint ignatius", "Lake County"),
  ("charlo", "Lake County"),
  ("pablo", "Lake County"),
  ("bigfork", "Lake County"),
  ("kalispell", "Flathead County"),
  ("whitefish", "Flathead County"),
  ("columbia falls", "Flathead County"),
  ("lakeside", "Flathead County"),
  ("somers", "Flathead County"),
  ("libby", "Lincoln County"),
  ("troy", "Lincoln County"),
  ("eureka", "Lincoln County"),
  ("fortine", "Lincoln County"),
  ("great falls", "Cascade County"),
  ("belt", "Cascade County"),
  ("neihart", "Cascade County"),
  ("cascade", "Cascade County"),
  ("simms", "Cascade County"),
  ("sun river", "Cascade County"),
  ("helena", "Lewis and Clark County"),
  ("east helena", "Lewis and Clark County"),
  ("augusta", "Lewis and Clark County"),
  ("lincoln", "Lewis and Clark County"),
  ("fort benton", "Chouteau County"),
  ("geraldine", "Chouteau County"),
  ("choteau", "Teton County"),
  ("fairfield", "Teton County"),
  ("dutton", "Teton County"),
  ("conrad", "Pondera County"),
  ("valier", "Pondera County"),
  ("cut bank", "Glacier County"),
  ("browning", "Glacier County"),
  ("shelby", "Toole County"),
  ("chester", "Liberty County"),
  ("glasgow", "Valley County"),
  ("nashua", "Valley County"),
  ("malta", "Phillips County"),
  ("saco", "Phillips County"),
  ("scobey", "Daniels County"),
  ("plentywood", "Sheridan County"),
  ("wolf point", "Roosevelt County"),
  ("poplar", "Roosevelt County"),
  ("culbertson", "Roosevelt County"),
  ("havre", "Hill County"),
  ("chinook", "Blaine County"),
  ("harlem", "Blaine County"),
  ("lewistown", "Fergus County"),
  ("roy", "Fergus County"),
  ("grass range", "Fergus County"),
  ("winifred", "Fergus County"),
  ("stanford", "Judith Basin County"),
  ("hobson", "Judith Basin County"),
  ("geyser", "Judith Basin County"),
  ("harlowton", "Wheatland County"),
  ("two dot", "Wheatland County"),
  ("white sulphur springs", "Meagher County"),
  ("martinsdale", "Meagher County"),
  ("ryegate", "Golden Valley County"),
  ("lavina", "Golden Valley County"),
  ("roundup", "Musselshell County"),
  ("melstone", "Musselshell County"),
  ("billings", "Yellowstone County"),
  ("laurel", "Yellowstone County"),
  ("shepherd", "Yellowstone County"),
  ("huntley", "Yellowstone County"),
  ("columbus", "Stillwater County"),
  ("absarokee", "Stillwater County"),
  ("nye", "Stillwater County"),
  ("big timber", "Sweet Grass County"),
  ("greycliff", "Sweet Grass County"),
  ("livingston", "Park County"),
  ("gardiner", "Park County"),
  ("pray", "Park County"),
  ("clyde park", "Park County"),
  ("red lodge", "Carbon County"),
  ("bearcreek", "Carbon County"),
  ("bridger", "Carbon County"),
  ("bozeman", "Gallatin County"),
  ("belgrade", "Gallatin County"),
  ("manhattan", "Gallatin County"),
  ("three forks", "Gallatin County"),
  ("west yellowstone", "Gallatin County"),
  ("broadus", "Powder River County"),
  ("hardin", "Big Horn County"),
  ("crow agency", "Big Horn County"),
  ("lodge grass", "Big Horn County"),
  ("forsyth", "Rosebud County"),
  ("colstrip", "Rosebud County"),
  ("hysham", "Treasure County"),
  ("miles city", "Custer County"),
  ("ismay", "Custer County"),
  ("riverton", "Wyoming"),
  ("jordan", "Garfield County"),
  ("circle", "McCone County"),
  ("glendive", "Dawson County"),
  ("sidney", "Richland County"),
  ("fairview", "Richland County"),
  ("savage", "Richland County"),
  ("terry", "Prairie County"),
  ("wibaux", "Wibaux County"),
  ("baker", "Fallon County"),
  ("plevna", "Fallon County"),
  ("ekalaka", "Carter County"),
  ("msla", "Missoula County"),
  ("gt falls", "Cascade County"),
  ("gf", "Cascade County")]

/-- `resolve_town_to_county` from `skills/specialists.py`:
convert a town name to a county, or return the original if it already
names a county.  `if not location` is empty-string falsiness. -/
def resolve_town_to_county (location : String) : String :=
  if location = "" then location
  else
    let location_lower := strStrip (strLower location)
    match MONTANA_TOWN_TO_COUNTY.lookup location_lower with
    | some county => county
    | none =>
      if containsSub "county" location_lower then location
      else location ++ " County"

end MFC.Specialists


namespace MFC.Memory

/-- One transcript entry `{role, content}` as consumed by
`extract_name_from_transcript` and `save_call_to_zep`. -/
structure TEntry where
  role : String
  content : String
deriving DecidableEq, Repr

/-- The `skip_words` stop-word set of `extract_name_from_transcript`. -/
def skip_words : List String := [
  "good", "fine", "great", "well", "okay", "ok", "alright",
  "here", "calling", "looking", "interested", "wondering",
  "thinking", "trying", "wanting", "needing", "hoping",
  "just", "actually", "really", "very", "pretty",
  "hello", "hi", "hey", "morning", "afternoon", "evening",
  "what", "who", "where", "when", "why", "how",
  "glad", "happy", "pleased", "sure", "ready",
  "new", "old", "young", "local", "nearby",
  "customer", "caller", "rancher", "farmer", "producer"]

/-- Case-insensitive character equality (`re.IGNORECASE`). -/
def lowEq (a b : Char) : Bool := a.toLower == b.toLower

/-- Match a literal case-insensitively at the head; return the rest. -/
def matchLitCI : List Char → List Char → Option (List Char)
  | [], s => some s
  | _, [] => none
  | l :: ls, c :: cs => if lowEq l c then matchLitCI ls cs else none

/-- Split off the maximal leading whitespace run (`\s*`). -/
def spanWS (s : List Char) : List Char × List Char :=
  (s.takeWhile Char.isWhitespace, s.dropWhile Char.isWhitespace)

/-- `\s+`: at least one whitespace character, maximal run. -/
def parseWS1 (s : List Char) : Option (List Char × List Char) :=
  let p := spanWS s
  if p.1.isEmpty then none else some p

/-- `[A-Z][a-z]+` under `re.IGNORECASE`: a maximal run of at least two
ASCII letters.  (In every pattern of the source the element after the
run can never match a letter, so the greedy run never backtracks
internally.) -/
def parseWord (s : List Char) : Option (List Char × List Char) :=
  let w := s.takeWhile Char.isAlpha
  if 2 ≤ w.length then some (w, s.dropWhile Char.isAlpha) else none

/-- Greedy optional `(?:\s+[A-Z][a-z]+)?` with nothing required after the
group: take the second word (whitespace included in the capture) when
present. -/
def optSecondNoTail (r : List Char) : List Char × List Char :=
  match parseWS1 r with
  | some (ws, rest) =>
    match parseWord rest with
    | some (w2, r2) => (ws ++ w2, r2)
    | none => ([], r)
  | none => ([], r)

/-- Pattern 1: `my name is\s+([A-Z][a-z]+(?:\s+[A-Z][a-z]+)?)`. -/
def p1At (s : List Char) : Option (List Char) := do
  let r ← matchLitCI "my name is".data s
  let (_, r1) ← parseWS1 r
  let (w1, r2) ← parseWord r1
  return w1 ++ (optSecondNoTail r2).1

/-- Pattern 4: `call me\s+([A-Z][a-z]+)`. -/
def p4At (s : List Char) : Option (List Char) := do
  let r ← matchLitCI "call me".data s
  let (_, r1) ← parseWS1 r
  let (w1, _) ← parseWord r1
  return w1

/-- Pattern 5: `the name is\s+([A-Z][a-z]+(?:\s+[A-Z][a-z]+)?)`. -/
def p5At (s : List Char) : Option (List Char) := do
  let r ← matchLitCI "the name is".data s
  let (_, r1) ← parseWS1 r
  let (w1, r2) ← parseWord r1
  return w1 ++ (optSecondNoTail r2).1

/-- The `\s+calling` tail of pattern 2. -/
def tailCalling (r : List Char) : Bool :=
  match parseWS1 r with
  | some (_, rest) => (matchLitCI "calling".data rest).isSome
  | none => false

/-- Pattern 2: `this is\s+([A-Z][a-z]+(?:\s+[A-Z][a-z]+)?)\s+calling`.
The optional second word is tried greedily and backtracked to the
one-word capture when the tail fails. -/
def p2At (s : List Char) : Option (List Char) := do
  let r ← matchLitCI "this is".data s
  let (_, r1) ← parseWS1 r
  let (w1, r2) ← parseWord r1
  match parseWS1 r2 with
  | some (ws, rest) =>
    match parseWord rest with
    | some (w2, r3) =>
      if tailCalling r3 then return w1 ++ ws ++ w2
      else if tailCalling r2 then return w1 else none
    | none => if tailCalling r2 then return w1 else none
  | none => if tailCalling r2 then return w1 else none

/-- `I'?m` case-insensitively. -/
def parseIm : List Char → Option (List Char)
  | c1 :: rest =>
    if lowEq c1 'i' then
      match rest with
      | c2 :: r2 =>
        if c2 == apos then
          match r2 with
          | c3 :: r3 => if lowEq c3 'm' then some r3 else none
          | [] => none
        else if lowEq c2 'm' then some r2 else none
      | [] => none
    else none
  | [] => none

/-- Tail of pattern 3:
`(?:\s*[,.]|\s+and\s|\s+from\s|\s+over\s|\s+out\s|\s+here\s|$)`. -/
def p3Tail (r : List Char) : Bool :=
  (match (spanWS r).2 with
   | c :: _ => c == ',' || c == '.'
   | [] => false)
  ||
  (match parseWS1 r with
   | some (_, rest) =>
     ["and", "from", "over", "out", "here"].any fun w =>
       match matchLitCI w.data rest with
       | some (c :: _) => c.isWhitespace
       | some [] => false
       | none => false
   | none => false)
  || r.isEmpty || r == ['\n']

/-- The part of pattern 3 after the `(?:^|\.\s+)` anchor:
`I'?m\s+([A-Z][a-z]+(?:\s+[A-Z][a-z]+)?)` followed by `p3Tail`. -/
def p3Group (s : List Char) : Option (List Char) := do
  let r ← parseIm s
  let (_, r1) ← parseWS1 r
  let (w1, r2) ← parseWord r1
  match parseWS1 r2 with
  | some (ws, rest) =>
    match parseWord rest with
    | some (w2, r3) =>
      if p3Tail r3 then return w1 ++ ws ++ w2
      else if p3Tail r2 then return w1 else none
    | none => if p3Tail r2 then return w1 else none
  | none => if p3Tail r2 then return w1 else none

/-- Pattern 3 attempted at one position; the `^` alternative of the
anchor only applies at the start of the string. -/
def p3At (atStart : Bool) (s : List Char) : Option (List Char) :=
  (if atStart then p3Group s else none).orElse fun _ =>
    match s with
    | '.' :: r =>
      match parseWS1 r with
      | some (_, rest) => p3Group rest
      | none => none
    | _ => none

/-- `re.search`: try the pattern at each position, leftmost match wins. -/
def reSearch (f : List Char → Option (List Char)) : List Char → Option (List Char)
  | [] => f []
  | s@(_ :: t) => (f s).orElse fun _ => reSearch f t

/-- `re.search` for pattern 3 at positions after the start. -/
def p3SearchAux : List Char → Option (List Char)
  | [] => none
  | s@(_ :: t) => (p3At false s).orElse fun _ => p3SearchAux t

/-- `re.search` for pattern 3. -/
def p3Search (s : List Char) : Option (List Char) :=
  (p3At true s).orElse fun _ =>
    match s with
    | [] => none
    | _ :: t => p3SearchAux t

/-- Python `s.strip()` on a char list. -/
def stripChars (s : List Char) : List Char :=
  ((s.dropWhile Char.isWhitespace).reverse.dropWhile Char.isWhitespace).reverse

/-- `s.split()[0]` for a non-empty stripped string: the first
whitespace-delimited token. -/
def firstToken (s : List Char) : List Char :=
  (s.dropWhile Char.isWhitespace).takeWhile (fun c => !c.isWhitespace)

/-- Python `s.title()` restricted to ASCII: a letter is upper-cased when
it follows a non-letter and lower-cased otherwise. -/
def pyTitleAux : Bool → List Char → List Char
  | _, [] => []
  | prevAlpha, c :: rest =>
    (if c.isAlpha then (if prevAlpha then c.toLower else c.toUpper) else c)
      :: pyTitleAux c.isAlpha rest

/-- Python `s.title()`. -/
def pyTitle (s : List Char) : List Char := pyTitleAux false s

/-- The post-match validation of `extract_name_from_transcript`:
stop-word guard on the first token, length bounds, at least one letter;
`none` means the Python `continue`. -/
def validateCandidate (cap : List Char) : Option String :=
  let name := stripChars cap
  let first_word :=
    if name.isEmpty then "" else strLower (String.mk (firstToken name))
  if skip_words.contains first_word then none
  else if name.length < 2 ∨ 40 < name.length then none
  else if ¬ name.any Char.isAlpha then none
  else some (String.mk (pyTitle name))

/-- The five `name_patterns` searched in order on one message. -/
def patternResults (message : String) : List (Option (List Char)) :=
  [reSearch p1At message.data, reSearch p2At message.data,
   p3Search message.data, reSearch p4At message.data,
   reSearch p5At message.data]

/-- First pattern whose match also passes validation (`continue`
otherwise), within one message. -/
def firstValid : List (Option (List Char)) → Option String
  | [] => none
  | none :: rest => firstValid rest
  | some cap :: rest =>
    match validateCandidate cap with
    | some n => some n
    | none => firstValid rest

/-- Scan messages in order; first validated match wins. -/
def tryMessages : List String → Option String
  | [] => none
  | m :: rest =>
    match firstValid (patternResults m) with
    | some n => some n
    | none => tryMessages rest

/-- `extract_name_from_transcript` from `skills/memory.py`: scan the
caller's turns among the first 8 transcript entries with the five
introduction patterns. -/
def extract_name_from_transcript (transcript : List TEntry) : Option String :=
  if transcript.isEmpty then none
  else
    tryMessages ((transcript.take 8).filterMap fun msg =>
      if msg.role == "user" && msg.content != "" then some msg.content else none)

end MFC.Memory


namespace MFC.Memory

/-- The `montana_locations` list of `extract_location_from_transcript`. -/
def montana_locations : List String := [
  "polson", "missoula", "billings", "bozeman", "kalispell", "helena",
  "great falls", "butte", "havre", "miles city", "livingston", "whitefish",
  "columbia falls", "bigfork", "ronan", "st ignatius", "charlo"]

/-- A regex alternation of literals: each literal is tried in order at
the current position and the continuation may backtrack to the next
alternative. -/
def altLit (lits : List (List Char)) (k : List Char → Option (List Char))
    (s : List Char) : Option (List Char) :=
  match lits with
  | [] => none
  | l :: ls =>
    match matchLitCI l s with
    | some r => (k r).orElse fun _ => altLit ls k s
    | none => altLit ls k s

/-- `\s+` then a one-or-two-word capture (greedy, nothing after). -/
def ws1CaptureTwo (r : List Char) : Option (List Char) := do
  let (_, r1) ← parseWS1 r
  let (w1, r2) ← parseWord r1
  return w1 ++ (optSecondNoTail r2).1

/-- `\s+` then a single-word capture. -/
def ws1CaptureOne (r : List Char) : Option (List Char) := do
  let (_, r1) ← parseWS1 r
  let (w1, _) ← parseWord r1
  return w1

/-- Location pattern 1:
`(?:from|in|near|around|out of)\s+([A-Z][a-z]+(?:\s+[A-Z][a-z]+)?)`. -/
def locP1At (s : List Char) : Option (List Char) :=
  altLit ["from".data, "in".data, "near".data, "around".data, "out of".data]
    ws1CaptureTwo s

/-- Location pattern 2: `(?:live in|located in|based in)\s+([A-Z][a-z]+)`. -/
def locP2At (s : List Char) : Option (List Char) :=
  altLit ["live in".data, "located in".data, "based in".data] ws1CaptureOne s

/-- The literal `I'm`. -/
def imLit : List Char := ['i', apos, 'm']

/-- The literal `we're`. -/
def wereLit : List Char := ['w', 'e', apos, 'r', 'e']

/-- Location pattern 3: `(?:I'm|we're)\s+(?:in|at|from)\s+([A-Z][a-z]+)`. -/
def locP3At (s : List Char) : Option (List Char) :=
  altLit [imLit, wereLit]
    (fun r => do
      let (_, r1) ← parseWS1 r
      altLit ["in".data, "at".data, "from".data] ws1CaptureOne r1)
    s

/-- Per-pattern validation of `extract_location_from_transcript`: strip,
keep only candidates of length at least 3, title-case the winner. -/
def firstLoc : List (Option (List Char)) → Option String
  | [] => none
  | none :: rest => firstLoc rest
  | some cap :: rest =>
    let p := stripChars cap
    if 3 ≤ p.length then some (String.mk (pyTitle p)) else firstLoc rest

/-- One message of the location scan: known Montana locations as
substrings first, then the prepositional patterns. -/
def tryLocMessage (message : String) : Option String :=
  let message_lower := strLower message
  match montana_locations.find? (fun loc => containsSub loc message_lower) with
  | some loc => some (String.mk (pyTitle loc.data))
  | none =>
    firstLoc [reSearch locP1At message.data, reSearch locP2At message.data,
      reSearch locP3At message.data]

/-- Scan messages in order for a location. -/
def tryLocMessages : List String → Option String
  | [] => none
  | m :: rest =>
    match tryLocMessage m with
    | some l => some l
    | none => tryLocMessages rest

/-- `extract_location_from_transcript` from `skills/memory.py`. -/
def extract_location_from_transcript (transcript : List TEntry) : Option String :=
  if transcript.isEmpty then none
  else
    tryLocMessages ((transcript.take 15).filterMap fun msg =>
      if msg.role == "user" && msg.content != "" then some msg.content else none)

end MFC.Memory

namespace MFC.Zep

open MFC.Memory

/-- `normalize_phone` from `config.py`: strip `+`, spaces and dashes. -/
def normalize_phone (phone : String) : String :=
  String.mk (phone.data.filter fun c => c ≠ '+' ∧ c ≠ ' ' ∧ c ≠ '-')

/-- A stored Zep user: `first_name` plus a free-form metadata map. -/
structure ZepUserRec where
  first_name : String
  metadata : List (String × String)
deriving DecidableEq, Repr

/-- The Zep user store, keyed by `user_id`. -/
abbrev ZepState := List (String × ZepUserRec)

/-- Replace the record stored under `uid`. -/
def setUser (st : ZepState) (uid : String) (r : ZepUserRec) : ZepState :=
  st.map fun p => if p.1 = uid then (uid, r) else p

/-- `GET /users/{id}`. -/
def getUser (st : ZepState) (uid : String) : Option ZepUserRec :=
  st.lookup uid

/-- Python dict truthiness for the optional `metadata` argument. -/
def metaTruthy : Option (List (String × String)) → Bool
  | none => false
  | some l => !l.isEmpty

/-- Python `metadata or default`. -/
def metaOr (m : Option (List (String × String))) (d : List (String × String)) :
    List (String × String) :=
  if metaTruthy m then m.getD [] else d

/-- `zep_create_or_update_user` from `skills/memory.py` against the
memory service's REST contract (`POST /users` answers 400
"already exists" on a duplicate; `PATCH /users/{id}` sets exactly the
supplied fields).  Returns the new store and whether the call returned a
non-`None` value. -/
def zep_create_or_update_user (st : ZepState) (user_id phone first_name : String)
    (metadata : Option (List (String × String))) : ZepState × Bool :=
  match st.lookup user_id with
  | none =>
    (st ++ [(user_id, ⟨first_name, metaOr metadata [("phone", phone)]⟩)], true)
  | some u =>
    let update : ZepUserRec :=
      ⟨first_name, if metaTruthy metadata then metadata.getD [] else u.metadata⟩
    (setUser st user_id update, true)

/-- Placeholder values rejected by `save_call_to_zep`. -/
def savePlaceholders : List String := ["caller", "unknown", "new caller"]

/-- The name-promotion step of `save_call_to_zep` (lines 335-340):
extract a name from the transcript when the known name is absent or a
placeholder.  Returns `(extracted_name, caller_name)`. -/
def save_effective_name (transcript : List TEntry) (caller_name : Option String) :
    Option String × Option String :=
  if !optTruthy caller_name
      || savePlaceholders.contains (strLower (caller_name.getD "")) then
    match extract_name_from_transcript transcript with
    | some n => (some n, some n)
    | none => (none, caller_name)
  else (none, caller_name)

/-- The metadata assembled by `save_call_to_zep` (lines 344-347). -/
def save_metadata (phone : String) (transcript : List TEntry) :
    List (String × String) :=
  match extract_location_from_transcript transcript with
  | some loc => [("phone", phone), ("location", loc)]
  | none => [("phone", phone)]

/-- The user-upsert step of `save_call_to_zep` (lines 333-357): upsert
with the validated name when one is known, else with the placeholder
`"Caller"`. -/
def save_user_upsert (st : ZepState) (phone : String) (transcript : List TEntry)
    (caller_name0 : Option String) : ZepState :=
  let user_id := "caller_" ++ normalize_phone phone
  let cn := (save_effective_name transcript caller_name0).2
  let metadata := save_metadata phone transcript
  if optTruthy cn && !savePlaceholders.contains (strLower (cn.getD "")) then
    (zep_create_or_update_user st user_id phone (cn.getD "") (some metadata)).1
  else
    (zep_create_or_update_user st user_id phone "Caller" (some metadata)).1

/-- One message sent to `POST /threads/{id}/messages`. -/
structure ZepMsg where
  role : String
  content : String
  name : String
  meta_call_id : String
  meta_phone : String
deriving DecidableEq, Repr

/-- The transcript→message mapping of `save_call_to_zep`
(lines 362-377): drop empty turns, map `user`→`user` and everything
else→`assistant`. -/
def toZepMessages (call_id phone : String) (caller_name : Option String)
    (transcript : List TEntry) : List ZepMsg :=
  transcript.filterMap fun entry =>
    if entry.content == "" then none
    else some
      { role := if entry.role == "user" then "user" else "assistant"
        content := entry.content
        name :=
          if entry.role == "user" && optTruthy caller_name then caller_name.getD ""
          else if entry.role == "user" then "Caller" else "MFC Agent"
        meta_call_id := call_id
        meta_phone := phone }

/-- `zep_messages[i:i+30]` slicing of the batch loop
(`for i in range(0, len(zep_messages), batch_size)`). -/
def chunkFuel : Nat → List α → List (List α)
  | _, [] => []
  | 0, _ :: _ => []
  | fuel + 1, a :: l => ((a :: l).take 30) :: chunkFuel fuel ((a :: l).drop 30)

/-- The slicing loop with enough fuel (each step consumes at least one
element, so `l.length` steps always suffice). -/
def chunkList (l : List α) : List (List α) := chunkFuel l.length l

/-- The batch loop of `save_call_to_zep` (lines 379-387): one
`zep_add_messages` call per batch, always moving on to the next batch;
`ok i` tells whether batch `i` succeeded.  Returns
`(number of append calls issued, total_saved)`. -/
def runBatches (ok : Nat → Bool) : Nat → List (List ZepMsg) → Nat × Nat
  | _, [] => (0, 0)
  | i, b :: bs =>
    let r := runBatches ok (i + 1) bs
    (r.1 + 1, (if ok i then b.length else 0) + r.2)

end MFC.Zep


namespace MFC.Zep

/-- The placeholder / filler values `lookup_caller_fast` rejects as a
stored first name. -/
def invalidZepNames : List String := ["caller", "unknown", "wondering", ""]

/-- Substrings that disqualify a stored first name in
`lookup_caller_fast`. -/
def badNameSubstrings : List String := ["wondering", "looking", "thinking", "calling"]

/-- The stored-name validation of `lookup_caller_fast` (memory.py
lines 271-274): non-empty, not a known filler value, and free of
filler substrings. -/
def zepNameValid (zep_name : String) : Bool :=
  zep_name ≠ "" && !invalidZepNames.contains (strLower zep_name)
    && !badNameSubstrings.any (fun w => containsSub w (strLower zep_name))

/-- The result dictionary of `lookup_caller_fast`. -/
structure FastResult where
  found : Bool
  user_id : String
  caller_name : Option String
  caller_location : Option String
  caller_specialist : Option String
  conversation_history : String
  message : String
deriving DecidableEq, Repr

/-- Metadata `.get`. -/
def metaGet (m : List (String × String)) (k : String) : Option String :=
  m.lookup k

/-- `lookup_caller_fast` from `skills/memory.py`: fast caller lookup
with memory context retrieval.  `zep_user` is the (already
error-caught) result of `zep_get_user`; `none` covers both a missing
user and a service failure. -/
def lookup_caller_fast (phone : String) (zep_user : Option ZepUserRec) : FastResult :=
  let user_id := "caller_" ++ normalize_phone phone
  match zep_user with
  | none =>
    { found := false, user_id := user_id, caller_name := none
      caller_location := none, caller_specialist := none
      conversation_history := "", message := "New caller" }
  | some u =>
    let caller_name := if zepNameValid u.first_name then some u.first_name else none
    let metadata := u.metadata
    let caller_location :=
      if metadata.isEmpty then none
      else pyOr (pyOr (metaGet metadata "location") (metaGet metadata "city"))
        (metaGet metadata "town")
    let caller_specialist :=
      if metadata.isEmpty then none else metaGet metadata "specialist"
    let context_parts :=
      if metadata.isEmpty then []
      else
        (if optTruthy caller_location then
          ["Location: " ++ caller_location.getD ""] else [])
        ++ (if optTruthy caller_specialist then
          ["Specialist: " ++ caller_specialist.getD ""] else [])
        ++ (if optTruthy (metaGet metadata "preferences") then
          ["Preferences: " ++ (metaGet metadata "preferences").getD ""] else [])
        ++ (if optTruthy (metaGet metadata "last_topic") then
          ["Last discussed: " ++ (metaGet metadata "last_topic").getD ""] else [])
    let conversation_context :=
      if context_parts.isEmpty then "" else String.intercalate " | " context_parts
    { found := caller_name.isSome
      user_id := user_id
      caller_name := caller_name
      caller_location := caller_location
      caller_specialist := caller_specialist
      conversation_history := conversation_context
      message :=
        if caller_name.isSome then "Caller: " ++ caller_name.getD "" else "New caller" }

end MFC.Zep

namespace MFC.Main

/-- `EXCLUDED_NAME_WORDS` from `main.py`. -/
def EXCLUDED_NAME_WORDS : List String := [
  "montana", "missoula", "darby", "hamilton", "dillon", "billings", "bozeman",
  "butte", "helena", "kalispell", "lewistown", "miles", "city", "columbus",
  "glasgow", "havre", "great", "falls", "wyoming", "riverton", "buffalo",
  "in", "at", "from", "near", "looking", "calling", "interested", "a", "the",
  "here", "there", "just", "really", "very", "good", "fine", "well",
  "yeah", "yes", "no", "not", "ok", "okay", "sure", "right", "hi", "hello",
  "thanks", "thank", "please", "sorry", "um", "uh", "so", "and", "but", "or",
  "feed", "company", "purina", "specialist", "agent", "customer", "caller",
  "unknown", "rancher", "farmer", "producer",
  "cattle", "cow", "cows", "bull", "bulls", "calf", "calves", "herd", "head",
  "chicken", "chickens", "sheep", "horse", "horses"]

/-- `is_valid_name` from `main.py`: is a string plausibly a real
person's name.  (The Python set literal repeats `"great"`; membership is
unchanged.) -/
def is_valid_name (name : String) : Bool :=
  if name = "" then false
  else
    let name_lower := strStrip (strLower name)
    if name_lower.length < 2 || 20 < name_lower.length then false
    else if EXCLUDED_NAME_WORDS.contains name_lower then false
    else if name_lower.data.any Char.isDigit then false
    else
      let vowels := ['a', 'e', 'i', 'o', 'u']
      (name_lower.data.any fun c => vowels.contains c)
        && (name_lower.data.any fun c => c.isAlpha && !vowels.contains c)

end MFC.Main

namespace MFC.Main

/-- Digit grouping for Python's `{:,.0f}` format, on the reversed digit
string. -/
def group3Fuel : Nat → List Char → List Char
  | _, [] => []
  | 0, l => l
  | f + 1, l =>
    if l.length ≤ 3 then l else (l.take 3) ++ ',' :: group3Fuel f (l.drop 3)

/-- `{:,.0f}` on a natural number. -/
def commaNat (n : Nat) : String :=
  let ds := (toString n).data
  String.mk ((group3Fuel ds.length ds.reverse).reverse)

/-- `{:,.0f}` on an integer. -/
def intComma (v : Int) : String :=
  if v < 0 then "-" ++ commaNat v.natAbs else commaNat v.natAbs

/-- Python f-string rendering of an optional value (`None` prints as
`"None"`). -/
def optStr (o : Option String) : String := o.getD "None"

/-- One row of the Supabase `caller_contacts` table as consumed by
`get_caller_context`. -/
structure ContactRow where
  first_name : Option String
  customer_name : Option String
  city : Option String
  state : Option String
  primary_warehouse : Option String
  territory : Option String
  is_existing_customer : Bool
  is_prospect : Bool
  total_sales : Option Int
  last_purchase : Option String
deriving DecidableEq, Repr

/-- The Zep user view consumed by `get_caller_context` step 2:
`hasattr`/falsy attributes collapse to `none`. -/
structure ZepMetaView where
  town : Option String
  last_interest : Option String
deriving DecidableEq, Repr

structure ZepView where
  first_name : Option String
  metadata : Option ZepMetaView
deriving DecidableEq, Repr

/-- One row of the `leads` table as selected by `get_caller_context`. -/
structure LeadRow where
  first_name : Option String
  last_name : Option String
  city : Option String
  primary_interest : Option String
deriving DecidableEq, Repr

/-- The caller-context dictionary built by `get_caller_context`. -/
structure Context where
  is_returning_caller : Bool
  is_known_contact : Bool
  is_existing_customer : Bool
  is_prospect : Bool
  caller_name : Option String
  customer_name : Option String
  city : Option String
  state : Option String
  county : Option String
  primary_warehouse : Option String
  territory : Option String
  total_sales : Int
  last_purchase : Option String
  last_town : Option String
  last_topic : Option String
  summary : String
  greeting_hint : String
deriving DecidableEq, Repr

/-- The initial context of `get_caller_context` (main.py lines 953-971),
which is also the unknown/first-time default profile. -/
def initContext : Context where
  is_returning_caller := false
  is_known_contact := false
  is_existing_customer := false
  is_prospect := false
  caller_name := none
  customer_name := none
  city := none
  state := none
  county := none
  primary_warehouse := none
  territory := none
  total_sales := 0
  last_purchase := none
  last_town := none
  last_topic := none
  summary := "First time caller - no previous information."
  greeting_hint := "New caller. Collect their name and information."

/-- Step 1 of `get_caller_context`: the `caller_contacts` row, with a
query error caught and skipped. -/
def contextStep1 (contacts : Except String (List ContactRow)) (c0 : Context) :
    Context :=
  match contacts with
  | .error _ => c0
  | .ok [] => c0
  | .ok (contact :: _) =>
    let c := { c0 with
      is_known_contact := true
      caller_name := pyOr contact.first_name contact.customer_name
      customer_name := contact.customer_name
      city := contact.city
      state := contact.state
      primary_warehouse := contact.primary_warehouse
      territory := contact.territory
      is_existing_customer := contact.is_existing_customer
      is_prospect := contact.is_prospect
      total_sales := contact.total_sales.getD 0
      last_purchase := contact.last_purchase
      last_town := contact.city }
    if c.is_existing_customer then
      let sales_str :=
        if c.total_sales ≠ 0 then "$" ++ intComma c.total_sales ++ " lifetime"
        else "existing"
      { c with
        summary := "Known customer: " ++ optStr contact.customer_name ++ " from "
          ++ optStr contact.city ++ ", " ++ optStr contact.state ++ ". "
          ++ sales_str ++ " customer. Primary warehouse: "
          ++ optStr contact.primary_warehouse ++ "."
        greeting_hint := "This is " ++ optStr c.caller_name
          ++ ", an existing customer from " ++ optStr contact.city
          ++ ". Greet them warmly by name." }
    else if c.is_prospect then
      { c with
        summary := "Wyoming prospect: " ++ optStr contact.customer_name ++ " from "
          ++ optStr contact.city ++ ", " ++ optStr contact.state
          ++ ". Seedstock operation - not yet a customer."
        greeting_hint := "This is " ++ optStr c.caller_name ++ ", a prospect from "
          ++ optStr contact.city ++ ". They" ++ aposS
          ++ "re a seedstock operation we" ++ aposS
          ++ "ve identified but haven" ++ aposS
          ++ "t done business with yet. Greet them by name." }
    else c

/-- Step 2 of `get_caller_context`: Zep conversation memory; a raising
lookup (user not found, service error) is caught and skipped. -/
def contextStep2 (phone_number : String) (zepRes : Except String ZepView)
    (c1 : Context) : Context :=
  match zepRes with
  | .error _ => c1
  | .ok user =>
    let c := { c1 with is_returning_caller := true }
    let c :=
      if !optTruthy c.caller_name && optTruthy user.first_name then
        let potential := user.first_name.getD ""
        if potential ≠ phone_number && is_valid_name potential then
          { c with caller_name := some potential }
        else c
      else c
    match user.metadata with
    | none => c
    | some meta =>
      let c :=
        if !optTruthy c.last_town && optTruthy meta.town then
          { c with last_town := meta.town }
        else c
      if optTruthy meta.last_interest then { c with last_topic := meta.last_interest }
      else c

/-- Step 3 of `get_caller_context`: the `leads` table, consulted only
while no caller name is known; a query error is caught and skipped. -/
def contextStep3 (leadsRes : Except String (List LeadRow)) (c2 : Context) :
    Context :=
  if optTruthy c2.caller_name then c2
  else
    match leadsRes with
    | .error _ => c2
    | .ok [] => c2
    | .ok (lead :: _) =>
      let c :=
        if optTruthy lead.first_name && is_valid_name (lead.first_name.getD "") then
          { c2 with caller_name := lead.first_name, is_returning_caller := true }
        else c2
      let c :=
        if !optTruthy c.last_town && optTruthy lead.city then
          { c with last_town := lead.city }
        else c
      if optTruthy lead.primary_interest then
        { c with last_topic := lead.primary_interest }
      else c

/-- Step 4 of `get_caller_context`: the final summary / greeting-hint
branching over the four known×returning cases. -/
def contextStep4 (c : Context) : Context :=
  if c.is_known_contact && c.is_returning_caller then
    { c with
      summary := c.summary ++ " Has called before."
      greeting_hint := "This is " ++ optStr c.caller_name
        ++ ", a returning caller and "
        ++ (if c.is_existing_customer then "existing customer" else "prospect")
        ++ ". Greet them warmly and reference that you remember them." }
  else if c.is_known_contact && !c.is_returning_caller then
    { c with
      greeting_hint := "This is " ++ optStr c.caller_name
        ++ " calling for the first time, but they" ++ aposS ++ "re "
        ++ (if c.is_existing_customer then "already a customer"
            else "a prospect we know about")
        ++ ". Greet them by name." }
  else if !c.is_known_contact && c.is_returning_caller then
    let base :=
      if optTruthy c.caller_name then
        "Returning caller named " ++ optStr c.caller_name
      else "Returning caller"
    let parts := [base]
      ++ (if optTruthy c.last_town then ["from " ++ c.last_town.getD ""] else [])
      ++ (if optTruthy c.last_topic then
        ["previously interested in " ++ c.last_topic.getD ""] else [])
    { c with
      summary := String.intercalate " " parts ++ "."
      greeting_hint := "Returning caller ("
        ++ (if optTruthy c.caller_name then c.caller_name.getD "" else "name known")
        ++ "). They" ++ aposS ++ "ve called before. Greet them warmly." }
  else
    { c with
      summary := "First time caller - no previous information."
      greeting_hint := "New caller. Collect their name and information." }

/-- `get_caller_context` from `main.py`: merge the three caller-identity
sources under first-writer precedence, catching each source's failure
locally.  The three arguments are the (possibly failing) results of the
`caller_contacts` query, the Zep user lookup, and the `leads` query. -/
def get_caller_context (phone_number : String)
    (contacts : Except String (List ContactRow))
    (zepRes : Except String ZepView)
    (leadsRes : Except String (List LeadRow)) : Context :=
  contextStep4 (contextStep3 leadsRes
    (contextStep2 phone_number zepRes (contextStep1 contacts initContext)))

end MFC.Main

namespace MFC.Main

/-- One row of the `town_distances` table. -/
structure TownRow where
  town_name : String
  state : String
  county : String
  assigned_territory : String
  nearest_distance : Option Int
deriving DecidableEq, Repr

/-- One row of the `territories` table. -/
structure TerritoryRow where
  id : Nat
  territory_name : String
  territory_code : String
  is_active : Bool
deriving DecidableEq, Repr

/-- One row of the `specialists` table. -/
structure SpecRow where
  id : Nat
  first_name : String
  last_name : String
  email : String
  phone : Option String
  territory_id : Nat
  is_active : Bool
deriving DecidableEq, Repr

/-- The relational datastore consumed by `lookup_town`; each table read
may fail (network/timeout), modelled by `Except`. -/
structure TownDB where
  town_distances : Except String (List TownRow)
  territories : Except String (List TerritoryRow)
  specialists : Except String (List SpecRow)

/-- The specialist info dictionary assembled by `lookup_town`. -/
structure SpecialistInfo where
  id : Nat
  first_name : String
  last_name : String
  full_name : String
  email : String
  phone : Option String
deriving DecidableEq, Repr

/-- The result dictionary of `lookup_town` (fields absent from a branch
are `none`). -/
structure LookupResult where
  success : Bool
  error : Option String
  town_searched : Option String
  town : Option String
  state : Option String
  county : Option String
  territory : Option String
  territory_id : Option Nat
  distance_miles : Option Int
  specialist : Option SpecialistInfo
  message : String
deriving DecidableEq, Repr

/-- A result with no optional field set. -/
def emptyLookup : LookupResult where
  success := false
  error := none
  town_searched := none
  town := none
  state := none
  county := none
  territory := none
  territory_id := none
  distance_miles := none
  specialist := none
  message := ""

/-- Supabase `.ilike` with a plain (wildcard-free) pattern:
case-insensitive equality. -/
def ilikeEq (a b : String) : Bool := strLower a == strLower b

/-- The body of `lookup_town` inside its `try`; a raised datastore error
is an `Except.error`. -/
def lookup_townE (db : TownDB) (town_name state : String) :
    Except String LookupResult := do
  if town_name = "" then
    return { emptyLookup with
      success := false
      error := some "No town name provided"
      message := "I need to know what town you" ++ aposS
        ++ "re near to connect you with the right specialist." }
  let allTowns ← db.town_distances
  let rows := allTowns.filter fun r =>
    ilikeEq r.town_name town_name && (state == "" || r.state == strUpper state)
  match rows with
  | [] =>
    return { emptyLookup with
      success := false
      error := some "Town not found"
      town_searched := some town_name
      message := "I don" ++ aposS ++ "t have " ++ town_name
        ++ " in my database. What" ++ aposS
        ++ "s a nearby larger town, or what county are you in?" }
  | town_data :: _ =>
    let territory_name := town_data.assigned_territory
    let allTerr ← db.territories
    let terrRows := allTerr.filter fun t =>
      t.territory_name == territory_name && t.is_active
    let territory_id : Option Nat :=
      match terrRows with
      | [] => none
      | t :: _ => some t.id
    let specialist_info : Option SpecialistInfo ←
      match territory_id with
      | none => pure none
      | some tid => do
        let allSpec ← db.specialists
        let specRows := allSpec.filter fun s => s.territory_id == tid && s.is_active
        pure (match specRows with
          | [] => none
          | s :: _ => some
            ⟨s.id, s.first_name, s.last_name, s.first_name ++ " " ++ s.last_name,
              s.email, s.phone⟩)
    let specialist_message :=
      match specialist_info with
      | some si => "Your local specialist is " ++ si.full_name ++ "."
      | none => ""
    return { emptyLookup with
      success := true
      town := some town_data.town_name
      state := some town_data.state
      county := some town_data.county
      territory := some territory_name
      territory_id := territory_id
      distance_miles :=
        match town_data.nearest_distance with
        | some d => if d ≠ 0 then some d else none
        | none => none
      specialist := specialist_info
      message := town_name ++ " is in our " ++ territory_name ++ ". "
        ++ specialist_message }

/-- `lookup_town` from `main.py`: the whole body runs under a `try`
whose handler degrades any raised error to `success=false` with a
clarifying message. -/
def lookup_town (db : TownDB) (town_name state : String) : LookupResult :=
  match lookup_townE db town_name state with
  | .ok r => r
  | .error e =>
    { emptyLookup with
      success := false
      error := some e
      message := "I had trouble looking up that location. What county are you in?" }

end MFC.Main

namespace MFC.Webhook

/-- `format_phone_for_zep` from `main_webhook.py`. -/
def format_phone_for_zep (phone : String) : String :=
  let clean := phone.data.filter Char.isDigit
  if clean.length = 10 then "+1" ++ String.mk clean
  else if clean.length = 11 && clean.head? == some '1' then "+" ++ String.mk clean
  else phone

/-- The Zep user as seen by `lookup_caller_in_zep` (`user.first_name`
may be null). -/
structure WebUserView where
  first_name : Option String
deriving DecidableEq, Repr

/-- The dictionary returned by `lookup_caller_in_zep`. -/
structure CallerInfo where
  caller_name : String
  is_returning : Bool
  user_id : String
deriving DecidableEq, Repr

/-- `lookup_caller_in_zep` from `main_webhook.py`; `zepRes` is the
outcome of `zep.user.get` (an exception covers both a missing user and
a service failure). -/
def lookup_caller_in_zep (zepRes : Except String WebUserView)
    (from_number : String) : CallerInfo :=
  match zepRes with
  | .ok user =>
    if optTruthy user.first_name then
      ⟨user.first_name.getD "", true, format_phone_for_zep from_number⟩
    else ⟨"New caller", false, format_phone_for_zep from_number⟩
  | .error _ => ⟨"New caller", false, from_number⟩

/-- The `dynamic_variables` map of the `retell_inbound_webhook`
response (`main_webhook.py` lines 73-94): `str(bool).lower()` renders
the flag. -/
def inbound_dynamic_variables (call_from_number : String)
    (zepRes : Except String WebUserView) : List (String × String) :=
  let from_number := if call_from_number = "" then "unknown" else call_from_number
  let info := lookup_caller_in_zep zepRes from_number
  [("caller_name", info.caller_name),
   ("is_returning", if info.is_returning then "true" else "false")]

end MFC.Webhook

namespace MFC

open MFC.Specialists MFC.Memory MFC.Zep MFC.Main MFC.Webhook

/-- A string whose first component is non-empty is non-empty. -/
theorem string_append_ne_empty_left (s t : String) (h : s ≠ "") : s ++ t ≠ "" := by
  intro hc
  apply h
  cases s with
  | mk sd =>
    cases t with
    | mk td =>
      have : sd ++ td = [] := congrArg String.data hc
      have : sd = [] := by
        cases sd with
        | nil => rfl
        | cons a l => simp at this
      simp [this]

/-- C8 — theorem (amended).
Town-to-county resolution for a non-empty place name: a table key maps
to its county; otherwise text already containing "county" is returned
unchanged; otherwise " County" is appended.  (Trimming cannot create or
destroy an occurrence of the whitespace-free needle "county", so the
branch conditions are stated over the code's trimmed lowercased form.) -/
theorem resolve_town_to_county_spec (loc : String) (h : loc ≠ "") :
    (∀ county,
      MONTANA_TOWN_TO_COUNTY.lookup (strStrip (strLower loc)) = some county →
        resolve_town_to_county loc = county)
  ∧ (MONTANA_TOWN_TO_COUNTY.lookup (strStrip (strLower loc)) = none →
      containsSub "county" (strStrip (strLower loc)) = true →
        resolve_town_to_county loc = loc)
  ∧ (MONTANA_TOWN_TO_COUNTY.lookup (strStrip (strLower loc)) = none →
      containsSub "county" (strStrip (strLower loc)) = false →
        resolve_town_to_county loc = loc ++ " County") := by
  refine ⟨?_, ?_, ?_⟩
  · intro county hl
    simp [resolve_town_to_county, h, hl]
  · intro hl hc
    simp [resolve_town_to_county, h, hl, hc]
  · intro hl hc
    simp [resolve_town_to_county, h, hl, hc]

/-- C8 — witness: the table row for "Darby". -/
theorem resolve_town_to_county_spec_witness :
    ("Darby" : String) ≠ "" ∧ resolve_town_to_county "Darby" = "Ravalli County" :=
  ⟨by decide,
    (resolve_town_to_county_spec "Darby" (by decide)).1 "Ravalli County" (by decide)⟩

/-- C8 — counterexample: on the empty place name the claim's third
branch mandates `" County"`, but the code's falsiness guard returns the
empty string unchanged. -/
theorem resolve_town_to_county_empty :
    MONTANA_TOWN_TO_COUNTY.lookup (strStrip (strLower "")) = none
  ∧ containsSub "county" (strStrip (strLower "")) = false
  ∧ resolve_town_to_county "" = ""
  ∧ resolve_town_to_county "" ≠ " County" := by decide

/-- C6 — theorem (amended).
The extraction test vectors against the code's five introduction
patterns: "my name is John Smith" yields "John Smith"; "I'm just
looking around" yields nothing; "Hey, it's Dave" also yields nothing,
because no pattern of the source matches an "it's X" introduction. -/
theorem extract_name_vectors :
    extract_name_from_transcript
      [⟨"user", "Hi, my name is John Smith, I need feed for my cattle."⟩]
      = some "John Smith"
  ∧ extract_name_from_transcript
      [⟨"user", "I" ++ aposS ++ "m just looking around"⟩] = none
  ∧ extract_name_from_transcript
      [⟨"user", "Hey, it" ++ aposS ++ "s Dave"⟩] = none := by decide

/-- C6 — counterexample: the claim's third vector; the code returns
nothing on "Hey, it's Dave", not "Dave". -/
theorem extract_name_its_dave :
    extract_name_from_transcript [⟨"user", "Hey, it" ++ aposS ++ "s Dave"⟩]
      ≠ some "Dave"
  ∧ extract_name_from_transcript [⟨"user", "Hey, it" ++ aposS ++ "s Dave"⟩]
      = none := by decide

/-- C9 — theorem (amended).
The `call_started` webhook's `dynamic_variables` map has the fixed key
list `caller_name, is_returning` (string values), and an unknown caller
is rendered as `caller_name = "New caller"`, `is_returning = "false"`. -/
theorem inbound_dynamic_variables_shape (call_from_number : String)
    (zepRes : Except String WebUserView) :
    (inbound_dynamic_variables call_from_number zepRes).map Prod.fst
      = ["caller_name", "is_returning"]
  ∧ (∀ e, zepRes = Except.error e →
      inbound_dynamic_variables call_from_number zepRes
        = [("caller_name", "New caller"), ("is_returning", "false")]) := by
  constructor
  · cases zepRes with
    | ok user =>
      by_cases hf : optTruthy user.first_name = true <;>
        simp [inbound_dynamic_variables, lookup_caller_in_zep, hf]
    | error e => simp [inbound_dynamic_variables, lookup_caller_in_zep]
  · intro e he
    subst he
    simp [inbound_dynamic_variables, lookup_caller_in_zep]

/-- C9 — witness: a failing Zep lookup yields the two-key map with the
"New caller" placeholder. -/
theorem inbound_dynamic_variables_shape_witness :
    (inbound_dynamic_variables "+14065551234"
      (Except.error "not found")).map Prod.fst = ["caller_name", "is_returning"]
  ∧ inbound_dynamic_variables "+14065551234" (Except.error "not found")
      = [("caller_name", "New caller"), ("is_returning", "false")] :=
  ⟨(inbound_dynamic_variables_shape "+14065551234" (Except.error "not found")).1,
    (inbound_dynamic_variables_shape "+14065551234" (Except.error "not found")).2
      "not found" rfl⟩

/-- C9 — counterexample: the response's variable map is keyed
`caller_name`/`is_returning`, not the claimed
`name`/`is_returning`/`conversation_history`/`location`/`specialist`
set, and the unknown value is "New caller", not the empty string. -/
theorem inbound_dynamic_variables_keys :
    (inbound_dynamic_variables "+14065551234" (Except.error "down")).map Prod.fst
      = ["caller_name", "is_returning"]
  ∧ (inbound_dynamic_variables "+14065551234" (Except.error "down")).lookup "name"
      = none
  ∧ (inbound_dynamic_variables "+14065551234"
      (Except.error "down")).lookup "conversation_history" = none
  ∧ (inbound_dynamic_variables "+14065551234" (Except.error "down")).lookup "location"
      = none
  ∧ (inbound_dynamic_variables "+14065551234"
      (Except.error "down")).lookup "specialist" = none
  ∧ (inbound_dynamic_variables "+14065551234"
      (Except.error "down")).lookup "caller_name" = some "New caller"
  ∧ ("New caller" : String) ≠ "" := by decide

end MFC

namespace MFC.Zep

/-- Appending a fresh user is found by lookup. -/
theorem lookup_append_self (st : ZepState) (uid : String) (r : ZepUserRec)
    (h : st.lookup uid = none) : (st ++ [(uid, r)]).lookup uid = some r := by
  induction st with
  | nil => simp [List.lookup]
  | cons p rest ih =>
    obtain ⟨k, v⟩ := p
    by_cases hk : uid = k
    · subst hk
      simp [List.lookup] at h
    · have hb : (uid == k) = false := by simp [hk]
      simp only [List.cons_append, List.lookup, hb] at h ⊢
      exact ih h

/-- Overwriting a key absent from the prefix only rewrites the appended
record. -/
theorem setUser_append_self (st : ZepState) (uid : String) (r r' : ZepUserRec)
    (h : st.lookup uid = none) :
    setUser (st ++ [(uid, r)]) uid r' = st ++ [(uid, r')] := by
  induction st with
  | nil => simp [setUser]
  | cons p rest ih =>
    obtain ⟨k, v⟩ := p
    by_cases hk : uid = k
    · subst hk
      simp [List.lookup] at h
    · have hb : (uid == k) = false := by simp [hk]
      simp only [List.lookup, hb] at h
      have hk' : ¬ k = uid := fun hkk => hk hkk.symm
      simp only [setUser, List.cons_append, List.map_cons, if_neg hk']
      have := ih h
      simp only [setUser] at this
      rw [this]

/-- Lookup after `setUser` on a present key returns the new record. -/
theorem lookup_setUser (st : ZepState) (uid : String) (u r : ZepUserRec)
    (h : st.lookup uid = some u) : (setUser st uid r).lookup uid = some r := by
  induction st with
  | nil => simp [List.lookup] at h
  | cons p rest ih =>
    obtain ⟨k, v⟩ := p
    by_cases hk : uid = k
    · subst hk
      simp only [setUser, List.map_cons]
      simp [List.lookup]
    · have hb : (uid == k) = false := by simp [hk]
      simp only [List.lookup, hb] at h
      have hk' : ¬ ((k, v).1 = uid) := fun hkk => hk hkk.symm
      simp only [setUser, List.map_cons]
      rw [if_neg hk']
      simp only [List.lookup, hb]
      have := ih h
      simpa [setUser] using this

/-- Rewriting the same record twice is the same as once. -/
theorem setUser_idem (st : ZepState) (uid : String) (r : ZepUserRec) :
    setUser (setUser st uid r) uid r = setUser st uid r := by
  simp only [setUser, List.map_map]
  have hf : ((fun p => if p.1 = uid then (uid, r) else p) ∘
      (fun p : String × ZepUserRec => if p.1 = uid then (uid, r) else p))
      = fun p => if p.1 = uid then (uid, r) else p := by
    funext p
    by_cases h : p.1 = uid <;> simp [h]
  rw [hf]

end MFC.Zep

namespace MFC

open MFC.Memory MFC.Zep MFC.Main

/-- C4 — theorem.
Idempotent upsert: calling `zep_create_or_update_user` twice with the
same user key and the same data returns success (non-`None`) on the
second call and leaves the store exactly as after the first call — the
duplicate-create response is converted into a partial update, never a
failure. -/
theorem zep_upsert_idempotent (st : ZepState) (uid phone fn : String)
    (md : Option (List (String × String))) :
    (zep_create_or_update_user
      (zep_create_or_update_user st uid phone fn md).1 uid phone fn md).2 = true
  ∧ (zep_create_or_update_user
      (zep_create_or_update_user st uid phone fn md).1 uid phone fn md).1
      = (zep_create_or_update_user st uid phone fn md).1 := by
  cases h : st.lookup uid with
  | none =>
    have h2 : (st ++ [(uid, (⟨fn, metaOr md [("phone", phone)]⟩ : ZepUserRec))]).lookup uid
        = some ⟨fn, metaOr md [("phone", phone)]⟩ := lookup_append_self st uid _ h
    constructor
    · simp [zep_create_or_update_user, h, h2]
    · simp only [zep_create_or_update_user, h, h2]
      rw [setUser_append_self st uid _ _ h]
      by_cases hm : metaTruthy md = true
      · simp [metaOr, hm]
      · have hm' : metaTruthy md = false := by simpa using hm
        simp [metaOr, hm']
  | some u =>
    have h2 := lookup_setUser st uid u
      ⟨fn, if metaTruthy md then md.getD [] else u.metadata⟩ h
    constructor
    · simp [zep_create_or_update_user, h, h2]
    · simp only [zep_create_or_update_user, h, h2]
      by_cases hm : metaTruthy md = true
      · simp only [hm, if_true]
        exact setUser_idem st uid _
      · have hm' : metaTruthy md = false := by simpa using hm
        simp only [hm', if_false]
        exact setUser_idem st uid _

/-- C1 — theorem (evaluating the code at the failing input).
A Zep user stores the validated, non-placeholder name "John"; a later
call is persisted with no known name and a transcript containing no
introduction, so `save_call_to_zep` takes its no-name branch and
upserts `first_name="Caller"`; the create conflicts, and the fallback
`PATCH` overwrites the stored validated name with the placeholder —
the monotonicity invariant the spec requires does not hold in the code. -/
theorem save_call_overwrites_validated_name :
    MFC.Main.is_valid_name "John" = true
  ∧ savePlaceholders.contains (strLower "John") = false
  ∧ extract_name_from_transcript [⟨"user", "I need a feed quote"⟩] = none
  ∧ save_user_upsert
      [("caller_14065551234", ⟨"John", [("phone", "+14065551234")]⟩)]
      "+14065551234" [⟨"user", "I need a feed quote"⟩] none
      = [("caller_14065551234", ⟨"Caller", [("phone", "+14065551234")]⟩)]
  ∧ ("Caller" : String) ≠ "John" := by decide

end MFC

namespace MFC.Zep

/-- With enough fuel, the slicing loop partitions the list. -/
theorem chunkFuel_join (n : Nat) :
    ∀ l : List α, l.length ≤ n → (chunkFuel n l).flatten = l := by
  induction n with
  | zero =>
    intro l h
    have : l = [] := List.eq_nil_of_length_eq_zero (Nat.le_zero.mp h)
    subst this
    rfl
  | succ n ih =>
    intro l h
    cases l with
    | nil => rfl
    | cons a t =>
      simp only [chunkFuel, List.flatten_cons]
      rw [ih ((a :: t).drop 30) (by simp [List.length_drop] at h ⊢; omega)]
      exact List.take_append_drop 30 (a :: t)

/-- With enough fuel, the loop issues exactly `⌈n/30⌉` batches. -/
theorem chunkFuel_length (n : Nat) :
    ∀ l : List α, l.length ≤ n → (chunkFuel n l).length = (l.length + 29) / 30 := by
  induction n with
  | zero =>
    intro l h
    have : l = [] := List.eq_nil_of_length_eq_zero (Nat.le_zero.mp h)
    subst this
    simp [chunkFuel]
  | succ n ih =>
    intro l h
    cases l with
    | nil => simp [chunkFuel]
    | cons a t =>
      simp only [chunkFuel, List.length_cons]
      rw [ih ((a :: t).drop 30) (by simp [List.length_drop] at h ⊢; omega)]
      simp only [List.length_drop, List.length_cons]
      omega

/-- Every batch produced by the slicing loop has at most 30 messages. -/
theorem chunkFuel_le30 (n : Nat) :
    ∀ (l : List α), ∀ b ∈ chunkFuel n l, b.length ≤ 30 := by
  induction n with
  | zero =>
    intro l b hb
    cases l <;> simp [chunkFuel] at hb
  | succ n ih =>
    intro l b hb
    cases l with
    | nil => simp [chunkFuel] at hb
    | cons a t =>
      simp only [chunkFuel, List.mem_cons] at hb
      cases hb with
      | inl h =>
        subst h
        simpa using List.length_take_le 30 (a :: t)
      | inr h => exact ih _ b h

/-- The batch loop issues one append call per batch, regardless of
which batches fail. -/
theorem runBatches_calls (ok : Nat → Bool) :
    ∀ (i : Nat) (bs : List (List ZepMsg)), (runBatches ok i bs).1 = bs.length := by
  intro i bs
  induction bs generalizing i with
  | nil => rfl
  | cons b rest ih => simp [runBatches, ih]

/-- The accumulated total is the sum of the lengths of the successful
batches. -/
theorem runBatches_saved (ok : Nat → Bool) :
    ∀ (i : Nat) (bs : List (List ZepMsg)),
      (runBatches ok i bs).2
        = ((bs.enumFrom i).map fun p => if ok p.1 then p.2.length else 0).sum := by
  intro i bs
  induction bs generalizing i with
  | nil => rfl
  | cons b rest ih => simp [runBatches, List.enumFrom, ih]

end MFC.Zep

namespace MFC

open MFC.Memory MFC.Zep

/-- C2 — theorem.
Batch math: for a transcript yielding at least one non-empty mapped
message, the persistence loop issues exactly `⌈n/30⌉` append calls
(whatever subset of batches fails — a failed batch never aborts the
rest), every batch carries at most 30 messages, the batches concatenate
back to the mapped message list in original order, and the accumulated
total is the sum of the sizes of the successful batches. -/
theorem save_call_batch_math (call_id phone : String) (cn : Option String)
    (transcript : List TEntry) (ok : Nat → Bool)
    (h : toZepMessages call_id phone cn transcript ≠ []) :
    (runBatches ok 0 (chunkList (toZepMessages call_id phone cn transcript))).1
      = ((toZepMessages call_id phone cn transcript).length + 29) / 30
  ∧ (chunkList (toZepMessages call_id phone cn transcript)).all
      (fun b => decide (b.length ≤ 30)) = true
  ∧ (chunkList (toZepMessages call_id phone cn transcript)).flatten
      = toZepMessages call_id phone cn transcript
  ∧ (runBatches ok 0 (chunkList (toZepMessages call_id phone cn transcript))).2
      = (((chunkList (toZepMessages call_id phone cn transcript)).enum).map
          fun p => if ok p.1 then p.2.length else 0).sum := by
  refine ⟨?_, ?_, ?_, ?_⟩
  · rw [runBatches_calls, chunkList, chunkFuel_length _ _ (Nat.le_refl _)]
  · rw [List.all_eq_true]
    intro b hb
    simpa using chunkFuel_le30 _ _ b hb
  · exact chunkFuel_join _ _ (Nat.le_refl _)
  · rw [runBatches_saved, List.enum]

/-- C2 — witness: a 31-turn transcript maps to 31 messages and is
persisted in two ordered batches of 30 and 1; with every batch
succeeding, 31 messages are counted. -/
theorem save_call_batch_math_witness :
    toZepMessages "call1" "+14065551234" none
      (List.replicate 31 (⟨"user", "hello"⟩ : TEntry)) ≠ []
  ∧ (runBatches (fun _ => true) 0 (chunkList (toZepMessages "call1" "+14065551234"
      none (List.replicate 31 (⟨"user", "hello"⟩ : TEntry))))).1
      = ((toZepMessages "call1" "+14065551234" none
          (List.replicate 31 (⟨"user", "hello"⟩ : TEntry))).length + 29) / 30
  ∧ (runBatches (fun _ => true) 0 (chunkList (toZepMessages "call1" "+14065551234"
      none (List.replicate 31 (⟨"user", "hello"⟩ : TEntry))))).2
      = (((chunkList (toZepMessages "call1" "+14065551234" none
          (List.replicate 31 (⟨"user", "hello"⟩ : TEntry)))).enum).map
          fun p => if (fun (_ : Nat) => true) p.1 then p.2.length else 0).sum :=
  ⟨by decide,
    (save_call_batch_math "call1" "+14065551234" none
      (List.replicate 31 ⟨"user", "hello"⟩) (fun _ => true) (by decide)).1,
    (save_call_batch_math "call1" "+14065551234" none
      (List.replicate 31 ⟨"user", "hello"⟩) (fun _ => true) (by decide)).2.2.2⟩

end MFC

namespace MFC

open MFC.Main

/-- C3 — theorem.
Fallback chain termination: whenever the place name cannot be resolved
(missing or not matched by the town query) or a datastore error is
raised anywhere in the body, `lookup_town` returns normally with
`success = false` and a non-empty caller-facing clarifying message —
the embedding is a total function, so no exception ever reaches the
caller. -/
theorem lookup_town_fallback (db : TownDB) (town_name state : String)
    (h : town_name = ""
      ∨ (∀ rows, db.town_distances = Except.ok rows →
          rows.filter (fun r => ilikeEq r.town_name town_name
            && (state == "" || r.state == strUpper state)) = [])
      ∨ (∃ e, lookup_townE db town_name state = Except.error e)) :
    (lookup_town db town_name state).success = false
  ∧ (lookup_town db town_name state).message ≠ "" := by
  have hempty : ∀ (hte : town_name = ""),
      (lookup_town db town_name state).success = false
        ∧ (lookup_town db town_name state).message ≠ "" := by
    intro hte
    subst hte
    have he : lookup_townE db "" state = Except.ok { emptyLookup with
        success := false
        error := some "No town name provided"
        message := "I need to know what town you" ++ aposS
          ++ "re near to connect you with the right specialist." } := by
      simp [lookup_townE, pure, Except.pure]
    refine ⟨?_, ?_⟩
    · simp [lookup_town, he]
    · simp only [lookup_town, he]
      decide
  rcases h with h | h | ⟨e, h⟩
  · exact hempty h
  · by_cases ht : town_name = ""
    · exact hempty ht
    · cases hd : db.town_distances with
      | error e =>
        have he : lookup_townE db town_name state = Except.error e := by
          simp [lookup_townE, ht, hd, Bind.bind, Except.bind, pure, Except.pure]
        refine ⟨?_, ?_⟩
        · simp [lookup_town, he]
        · simp only [lookup_town, he]
          decide
      | ok rows =>
        have hf := h rows hd
        have he : lookup_townE db town_name state = Except.ok { emptyLookup with
            success := false
            error := some "Town not found"
            town_searched := some town_name
            message := "I don" ++ aposS ++ "t have " ++ town_name
              ++ " in my database. What" ++ aposS
              ++ "s a nearby larger town, or what county are you in?" } := by
          simp [lookup_townE, ht, hd, hf, Bind.bind, Except.bind, pure, Except.pure]
        refine ⟨?_, ?_⟩
        · simp [lookup_town, he]
        · simp only [lookup_town, he]
          exact string_append_ne_empty_left _ _ (string_append_ne_empty_left _ _
            (string_append_ne_empty_left _ _ (string_append_ne_empty_left _ _
              (string_append_ne_empty_left _ _ (by decide)))))
  · refine ⟨?_, ?_⟩
    · simp [lookup_town, h]
    · simp only [lookup_town, h]
      decide

/-- C3 — witness: an unrecognized town over healthy (empty) tables
degrades to `success = false` with a clarifying message. -/
theorem lookup_town_fallback_witness :
    (lookup_town ⟨Except.ok [], Except.ok [], Except.ok []⟩ "Atlantis" "").success
      = false
  ∧ (lookup_town ⟨Except.ok [], Except.ok [], Except.ok []⟩ "Atlantis" "").message
      ≠ "" :=
  lookup_town_fallback ⟨Except.ok [], Except.ok [], Except.ok []⟩ "Atlantis" ""
    (Or.inr (Or.inl (fun rows hr => by
      injection hr with hr
      subst hr
      rfl)))

end MFC

namespace MFC.Main

/-- Step 4 only rewrites `summary` and `greeting_hint`. -/
theorem contextStep4_fields (c : Context) :
    (contextStep4 c).caller_name = c.caller_name
  ∧ (contextStep4 c).last_town = c.last_town
  ∧ (contextStep4 c).city = c.city
  ∧ (contextStep4 c).customer_name = c.customer_name
  ∧ (contextStep4 c).territory = c.territory
  ∧ (contextStep4 c).state = c.state := by
  unfold contextStep4
  refine ⟨?_, ?_, ?_, ?_, ?_, ?_⟩ <;> (repeat' split) <;> simp

/-- Step 2 never replaces a truthy caller name. -/
theorem contextStep2_caller_name (phone : String) (zepRes : Except String ZepView)
    (c : Context) (h : optTruthy c.caller_name = true) :
    (contextStep2 phone zepRes c).caller_name = c.caller_name := by
  unfold contextStep2
  cases zepRes with
  | error e => rfl
  | ok user =>
    simp only [h]
    cases user.metadata <;> (repeat' split) <;> simp_all

/-- Step 2 never replaces a truthy stored town. -/
theorem contextStep2_last_town (phone : String) (zepRes : Except String ZepView)
    (c : Context) (h : optTruthy c.last_town = true) :
    (contextStep2 phone zepRes c).last_town = c.last_town := by
  cases zepRes with
  | error e => rfl
  | ok user =>
    obtain ⟨ufn, umeta⟩ := user
    cases umeta <;> simp only [contextStep2] <;> (repeat' split) <;> simp_all

/-- Step 2 never touches the contact-only fields. -/
theorem contextStep2_const (phone : String) (zepRes : Except String ZepView)
    (c : Context) :
    (contextStep2 phone zepRes c).city = c.city
  ∧ (contextStep2 phone zepRes c).customer_name = c.customer_name
  ∧ (contextStep2 phone zepRes c).territory = c.territory
  ∧ (contextStep2 phone zepRes c).state = c.state := by
  cases zepRes with
  | error e => exact ⟨rfl, rfl, rfl, rfl⟩
  | ok user =>
    obtain ⟨ufn, umeta⟩ := user
    cases umeta <;> simp only [contextStep2] <;> (repeat' split) <;> simp_all

/-- Step 3 is skipped entirely once a caller name is known. -/
theorem contextStep3_skip (leadsRes : Except String (List LeadRow)) (c : Context)
    (h : optTruthy c.caller_name = true) : contextStep3 leadsRes c = c := by
  unfold contextStep3
  simp [h]

/-- Step 1 on a found contact row: the profile fields come from the
row. -/
theorem contextStep1_proj (contact : ContactRow) (rest : List ContactRow)
    (c0 : Context) :
    (contextStep1 (Except.ok (contact :: rest)) c0).caller_name
      = pyOr contact.first_name contact.customer_name
  ∧ (contextStep1 (Except.ok (contact :: rest)) c0).last_town = contact.city
  ∧ (contextStep1 (Except.ok (contact :: rest)) c0).city = contact.city
  ∧ (contextStep1 (Except.ok (contact :: rest)) c0).customer_name
      = contact.customer_name
  ∧ (contextStep1 (Except.ok (contact :: rest)) c0).territory = contact.territory
  ∧ (contextStep1 (Except.ok (contact :: rest)) c0).state = contact.state := by
  simp only [contextStep1]
  refine ⟨?_, ?_, ?_, ?_, ?_, ?_⟩ <;> (repeat' split) <;> simp

end MFC.Main

namespace MFC

open MFC.Main

/-- C7 — theorem.
Resolver total on failure: `get_caller_context` is a total function of
its source results; when every source lookup fails the profile is
exactly the unknown/first-time default, and a failing contacts or leads
query is indistinguishable from that source having no data. -/
theorem get_caller_context_total (phone e₁ e₂ e₃ : String)
    (contacts : Except String (List ContactRow)) (zepRes : Except String ZepView)
    (leadsRes : Except String (List LeadRow)) :
    get_caller_context phone (Except.error e₁) (Except.error e₂) (Except.error e₃)
      = initContext
  ∧ get_caller_context phone (Except.error e₁) zepRes leadsRes
      = get_caller_context phone (Except.ok []) zepRes leadsRes
  ∧ get_caller_context phone contacts zepRes (Except.error e₃)
      = get_caller_context phone contacts zepRes (Except.ok []) := by
  refine ⟨rfl, rfl, ?_⟩
  simp only [get_caller_context, contextStep3]

/-- C5 — theorem (amended).
Precedence merge: when the known-contacts registry supplies a caller
name, that name is the final profile's name (memory-service and leads
values can never replace it), a truthy contact city is never
overwritten as `last_town`, and the contact-only fields are untouched
by the lower-precedence sources.  (`last_topic` is excluded: it is the
one field the leads source may overwrite after the memory service set
it.) -/
theorem get_caller_context_precedence (phone : String) (contact : ContactRow)
    (rest : List ContactRow) (zepRes : Except String ZepView)
    (leadsRes : Except String (List LeadRow))
    (h : optTruthy (pyOr contact.first_name contact.customer_name) = true) :
    (get_caller_context phone (Except.ok (contact :: rest)) zepRes
      leadsRes).caller_name = pyOr contact.first_name contact.customer_name
  ∧ (optTruthy contact.city = true →
      (get_caller_context phone (Except.ok (contact :: rest)) zepRes
        leadsRes).last_town = contact.city)
  ∧ (get_caller_context phone (Except.ok (contact :: rest)) zepRes
      leadsRes).city = contact.city
  ∧ (get_caller_context phone (Except.ok (contact :: rest)) zepRes
      leadsRes).customer_name = contact.customer_name
  ∧ (get_caller_context phone (Except.ok (contact :: rest)) zepRes
      leadsRes).territory = contact.territory := by
  have h1 := contextStep1_proj contact rest initContext
  have hname1 : optTruthy
      (contextStep1 (Except.ok (contact :: rest)) initContext).caller_name = true := by
    rw [h1.1]; exact h
  have h2name := contextStep2_caller_name phone zepRes _ hname1
  have hname2 : optTruthy (contextStep2 phone zepRes
      (contextStep1 (Except.ok (contact :: rest)) initContext)).caller_name = true := by
    rw [h2name]; exact hname1
  have h3 := contextStep3_skip leadsRes _ hname2
  have h4 := contextStep4_fields (contextStep3 leadsRes (contextStep2 phone zepRes
    (contextStep1 (Except.ok (contact :: rest)) initContext)))
  have h2c := contextStep2_const phone zepRes
    (contextStep1 (Except.ok (contact :: rest)) initContext)
  refine ⟨?_, ?_, ?_, ?_, ?_⟩
  · rw [get_caller_context, h4.1, h3, h2name, h1.1]
  · intro hc
    have htown1 : optTruthy
        (contextStep1 (Except.ok (contact :: rest)) initContext).last_town = true := by
      rw [h1.2.1]; exact hc
    have h2town := contextStep2_last_town phone zepRes _ htown1
    rw [get_caller_context, h4.2.1, h3, h2town, h1.2.1]
  · rw [get_caller_context, h4.2.2.1, h3, h2c.1, h1.2.2.1]
  · rw [get_caller_context, h4.2.2.2.1, h3, h2c.2.1, h1.2.2.2.1]
  · rw [get_caller_context, h4.2.2.2.2.1, h3, h2c.2.2.1, h1.2.2.2.2.1]

/-- C5 — witness: the known-contacts name "Alice" beats a valid
memory-service name "Bob". -/
theorem get_caller_context_precedence_witness :
    optTruthy (pyOr (some "Alice") (some "Alice Ranch LLC")) = true
  ∧ (get_caller_context "+14065551234"
      (Except.ok [⟨some "Alice", some "Alice Ranch LLC", some "Polson",
        some "MT", none, none, false, false, none, none⟩])
      (Except.ok ⟨some "Bob", none⟩) (Except.ok [])).caller_name = some "Alice" :=
  ⟨by decide,
    ((get_caller_context_precedence "+14065551234"
      ⟨some "Alice", some "Alice Ranch LLC", some "Polson", some "MT",
        none, none, false, false, none, none⟩ []
      (Except.ok ⟨some "Bob", none⟩) (Except.ok []) (by decide)).1).trans (by decide)⟩

/-- C5 — counterexample: with no resolved name, a `last_topic` set by
the memory service ("hay") is overwritten by the lower-precedence leads
source ("mineral") — the universal first-writer-wins clause fails. -/
theorem get_caller_context_last_topic_overwritten :
    (get_caller_context "+14065551234" (Except.ok [])
      (Except.ok ⟨some "Caller", some ⟨none, some "hay"⟩⟩)
      (Except.ok [])).last_topic = some "hay"
  ∧ (get_caller_context "+14065551234" (Except.ok [])
      (Except.ok ⟨some "Caller", some ⟨none, some "hay"⟩⟩)
      (Except.ok [⟨none, none, none, some "mineral"⟩])).last_topic = some "mineral"
  ∧ (some "mineral" : Option String) ≠ some "hay" := by decide

end MFC

namespace MFC

open MFC.Zep

/-- C10 — theorem.
`lookup_caller_fast` reports `found = true` exactly when a stored name
passing the filler-value validation was recovered; a user whose stored
name fails validation yields `found = false` with a null `caller_name`;
and the metadata-derived location, specialist and conversation-history
fields do not depend on the stored name at all, so they are still
returned in that same result. -/
theorem lookup_caller_fast_found (phone : String) (zu : Option ZepUserRec) :
    ((lookup_caller_fast phone zu).found = true ↔
      ∃ u, zu = some u ∧ zepNameValid u.first_name = true)
  ∧ (∀ u, zu = some u → zepNameValid u.first_name = false →
      (lookup_caller_fast phone zu).found = false
      ∧ (lookup_caller_fast phone zu).caller_name = none)
  ∧ (∀ u n, zu = some u →
      (lookup_caller_fast phone (some { u with first_name := n })).caller_location
        = (lookup_caller_fast phone zu).caller_location
      ∧ (lookup_caller_fast phone (some { u with first_name := n })).caller_specialist
        = (lookup_caller_fast phone zu).caller_specialist
      ∧ (lookup_caller_fast phone
          (some { u with first_name := n })).conversation_history
        = (lookup_caller_fast phone zu).conversation_history) := by
  refine ⟨?_, ?_, ?_⟩
  · cases zu with
    | none => simp [lookup_caller_fast]
    | some u =>
      by_cases hv : zepNameValid u.first_name = true
      · simp [lookup_caller_fast, hv]
      · have hv' : zepNameValid u.first_name = false := by simpa using hv
        simp [lookup_caller_fast, hv']
  · intro u hu hv
    subst hu
    simp [lookup_caller_fast, hv]
  · intro u n hu
    subst hu
    exact ⟨rfl, rfl, rfl⟩

/-- C10 — witness: a stored placeholder name "Caller" yields
`found = false` and a null name while the metadata context is still
returned. -/
theorem lookup_caller_fast_found_witness :
    (lookup_caller_fast "+14065551234"
      (some ⟨"Caller", [("location", "Polson"), ("specialist", "Taylor")]⟩)).found
      = false
  ∧ (lookup_caller_fast "+14065551234"
      (some ⟨"Caller", [("location", "Polson"), ("specialist", "Taylor")]⟩)).caller_name
      = none
  ∧ (lookup_caller_fast "+14065551234"
      (some ⟨"Caller", [("location", "Polson"),
        ("specialist", "Taylor")]⟩)).caller_location = some "Polson"
  ∧ (lookup_caller_fast "+14065551234"
      (some ⟨"Caller", [("location", "Polson"),
        ("specialist", "Taylor")]⟩)).conversation_history
      = "Location: Polson | Specialist: Taylor" :=
  ⟨((lookup_caller_fast_found "+14065551234"
      (some ⟨"Caller", [("location", "Polson"), ("specialist", "Taylor")]⟩)).2.1
      ⟨"Caller", [("location", "Polson"), ("specialist", "Taylor")]⟩ rfl (by decide)).1,
   ((lookup_caller_fast_found "+14065551234"
      (some ⟨"Caller", [("location", "Polson"), ("specialist", "Taylor")]⟩)).2.1
      ⟨"Caller", [("location", "Polson"), ("specialist", "Taylor")]⟩ rfl (by decide)).2,
   by decide, by decide⟩

end MFC
